import Mathlib

/-!
Verification of the 1688 product-page extraction engine (`src/crawler.py`)
against its natural-language specification.

The crawler is shallowly embedded: the browser-automation surface is an
oracle (functions from selector strings to optional element texts), module
constants (`COMMON_SELECTORS`, `PAGE_SCHEMAS`) are Lean data, prices are
rationals, and Python exceptions are explicit result constructors.
-/

-- ==========================================================================
-- Text helpers: Python `str.strip` and `re.sub(r"\s+", " ", ·)`
-- ==========================================================================

/-- Whitespace class of Python's `str.strip()` / `re` `\s` (ASCII part). -/
def isPySpace (c : Char) : Bool :=
  c = ' ' || c = '\t' || c = '\n' || c = '\r' || c = Char.ofNat 11 || c = Char.ofNat 12

/-- `str.strip()` on a character list: drop whitespace at both ends. -/
def pyStripList (cs : List Char) : List Char :=
  ((cs.dropWhile isPySpace).reverse.dropWhile isPySpace).reverse

/-- Python `str.strip()`. -/
def pyStrip (s : String) : String :=
  String.mk (pyStripList s.data)

/-- Worker for whitespace collapsing; the flag says whether the previous
character belonged to a whitespace run. -/
def collapseWsAux : Bool → List Char → List Char
  | _, [] => []
  | prev, c :: rest =>
    if isPySpace c then
      if prev then collapseWsAux true rest
      else ' ' :: collapseWsAux true rest
    else c :: collapseWsAux false rest

/-- Python `re.sub(r"\s+", " ", s)`: each whitespace run becomes one space. -/
def collapseWs (s : String) : String :=
  String.mk (collapseWsAux false s.data)

/-- Substring containment test (`needle in hay` on Python strings). -/
def containsSub (needle : List Char) : List Char → Bool
  | [] => needle.isEmpty
  | c :: rest => needle.isPrefixOf (c :: rest) || containsSub needle rest

-- ==========================================================================
-- Field normalizers: `_parse_price`, `_parse_stock` (crawler.py 92-117)
-- ==========================================================================

def isDigitCh (c : Char) : Bool := '0' ≤ c && c ≤ '9'

def digitVal (c : Char) : Nat := c.toNat - 48

def natOfDigits (ds : List Char) : Nat :=
  ds.foldl (fun a c => 10 * a + digitVal c) 0

/-- The capture of `re.search(r"(\d+[\.,]?\d*)", text)`: an integer part, an
optional single `.` or `,` separator, and a (possibly empty) fraction part. -/
structure PriceMatch where
  intPart : List Char
  sep : Option Char
  fracPart : List Char
deriving DecidableEq

/-- Leftmost match of `\d+[\.,]?\d*`: scan to the first digit, take the
maximal digit run, then at most one `.`/`,`, then a maximal digit run. -/
def scanMatch : List Char → Option PriceMatch
  | [] => none
  | c :: rest =>
    if isDigitCh c then
      let ds := (c :: rest).takeWhile isDigitCh
      match (c :: rest).dropWhile isDigitCh with
      | [] => some ⟨ds, none, []⟩
      | s :: r2 =>
        if s = '.' || s = ',' then some ⟨ds, some s, r2.takeWhile isDigitCh⟩
        else some ⟨ds, none, []⟩
    else scanMatch rest

/-- Value of the matched text after `.replace(',', '')` and `float(·)`:
a `,` separator is deleted (thousands separator), a `.` separates the
fraction. -/
def matchValue (m : PriceMatch) : ℚ :=
  match m.sep with
  | some c =>
    if c = ',' then (natOfDigits (m.intPart ++ m.fracPart) : ℚ)
    else (natOfDigits m.intPart : ℚ)
      + (natOfDigits m.fracPart : ℚ) / ((10 : ℚ) ^ m.fracPart.length)
  | none => (natOfDigits m.intPart : ℚ)

/-- "包邮" (free shipping) marker test. -/
def containsBaoYou (s : String) : Bool :=
  containsSub "包邮".data s.data

/-- `_parse_price` (crawler.py 92-104): `None` on falsy text, `0.0` on the
free-shipping marker, else the first `\d+[\.,]?\d*` match parsed as a
number; `None` when no match. Total by construction (the `float` call in
the source cannot fail on the matched shape, and its guard returns `None`). -/
def parsePrice (s : String) : Option ℚ :=
  if s = "" then none
  else if containsBaoYou s then some 0
  else
    match scanMatch s.data with
    | none => none
    | some m => some (matchValue m)

/-- First maximal digit run of the text (`re.search(r"(\d+)", text)`). -/
def firstNatRun : List Char → Option (List Char)
  | [] => none
  | c :: rest =>
    if isDigitCh c then some ((c :: rest).takeWhile isDigitCh)
    else firstNatRun rest

/-- `_parse_stock` (crawler.py 107-117): first integer substring, else 0. -/
def parseStock (s : String) : Nat :=
  match firstNatRun s.data with
  | none => 0
  | some ds => natOfDigits ds

example : parsePrice "包邮" = some 0 := by decide
example : parsePrice "¥12.50 起" = some (((12 : ℕ) : ℚ) + ((50 : ℕ) : ℚ) / (10 : ℚ) ^ 2) := by rfl
example : parsePrice "1,234元" = some 1234 := by decide
example : parsePrice "no digits" = none := by decide
example : parseStock "库存 123 件" = 123 := by decide
example : pyStrip "  a  b\n" = "a  b" := by decide
example : collapseWs "a \n b" = "a b" := by decide

-- ==========================================================================
-- Selector catalogs: `COMMON_SELECTORS` and `PAGE_SCHEMAS` (crawler.py 22-76)
-- ==========================================================================

def productTitleSelectors : List String :=
  ["css:div.title-content h1", "css:div.title-text", "css:h1.d-title",
   "css:.mod-detail-title h1"]

def shippingSelectors : List String :=
  ["css:em.service-item", "css:.logistics-express-price", "css:.logistics-cost",
   "css:.postage-cost", "css:.freight-cost", "css:.service-item"]

/-- The `single_price` entry of `COMMON_SELECTORS`. The source list has a
missing comma after `"css:.discount-price .value"`, so Python concatenates
the two adjacent string literals into one sixth entry. -/
def singlePriceSelectors : List String :=
  ["css:.discountPrice-price", "css:.price-text", "css:.offer-current-price .value",
   "css:span.price", "css:.item-price-stock",
   "css:.discount-price .value" ++ "css:.discount-price .value"]

def attributesTableSelectors : List String :=
  ["css:#productAttributes table",
   "css:.od-collapse-module[data-spm-anchor-id*='productAttributes'] table",
   "css:div[data-spm-anchor-id*='productAttributes'] table",
   "css:.ant-descriptions-view table"]

def packagingTableSelectors : List String :=
  ["css:#productPackInfo table", "css:[data-module='od_product_pack_info'] table"]

/-- `COMMON_SELECTORS` as an association list. It has exactly these five
keys; in particular there is NO `"category"` entry, although
`_fetch_category` subscripts the dict with that key. -/
def commonSelectors : List (String × List String) :=
  [("product_title", productTitleSelectors),
   ("shipping", shippingSelectors),
   ("single_price", singlePriceSelectors),
   ("attributes_table", attributesTableSelectors),
   ("packaging_table", packagingTableSelectors)]

/-- One entry of `PAGE_SCHEMAS`. -/
structure PageSchema where
  name : String
  sku_wrapper : String
  sku_item : String
  sku_name : String
  price : String
  stock : String
deriving DecidableEq

def schemaStandardRetail : PageSchema :=
  { name := "Standard_Retail",
    sku_wrapper := "css:#sku-count-widget-wrapper",
    sku_item := "css:.sku-item-wrapper",
    sku_name := "css:.sku-item-name",
    price := "css:.discountPrice-price",
    stock := "css:.sku-item-sale-num" }

def schemaExpandView : PageSchema :=
  { name := "Expand_View_Template",
    sku_wrapper := "css:.expand-view-list",
    sku_item := "css:.expand-view-item",
    sku_name := "css:.item-label",
    price := "css:.item-price-stock",
    stock := "css:od-text[i18n='sku-stock']" }

def pageSchemas : List PageSchema := [schemaStandardRetail, schemaExpandView]

-- ==========================================================================
-- Scalar extractors: `_fetch_title`, `_fetch_shipping`, `_fetch_category`
-- ==========================================================================

/-- The document is an oracle from selector strings to element texts.
`find sel = none` models both "no element" and a raised automation
exception (the source treats them alike: `except Exception: continue`);
`some raw` is the element's `textContent`. -/
def SelFind : Type := String → Option String

/-- One candidate step of `_fetch_title`: resolve the selector, strip the
text, succeed only if the stripped text is non-empty. -/
def titleCand (find : SelFind) (sel : String) : Option String :=
  match find sel with
  | none => none
  | some raw => if pyStrip raw = "" then none else some (pyStrip raw)

def titleLoop (find : SelFind) : List String → String
  | [] => ""
  | sel :: rest =>
    match titleCand find sel with
    | some t => t
    | none => titleLoop find rest

/-- `_fetch_title` (crawler.py 124-135): first candidate selector with
non-empty stripped text wins; `""` when all fail. -/
def fetch_title (find : SelFind) : String :=
  titleLoop find productTitleSelectors

/-- Inner element loop of `_fetch_shipping`: first element whose stripped
text is non-empty and parses to a price. -/
def shippingFromElems : List String → Option (ℚ × String)
  | [] => none
  | raw :: rest =>
    let txt := pyStrip raw
    if txt = "" then shippingFromElems rest
    else
      match parsePrice txt with
      | some p => some (p, txt)
      | none => shippingFromElems rest

def shippingLoop (findAll : String → List String) : List String → ℚ × String
  | [] => (0, "")
  | sel :: rest =>
    match shippingFromElems (findAll sel) with
    | some r => r
    | none => shippingLoop findAll rest

/-- `_fetch_shipping` (crawler.py 138-153): candidate selectors in order,
all matched elements per selector in order; default `(0.0, "")`. -/
def fetch_shipping (findAll : String → List String) : ℚ × String :=
  shippingLoop findAll shippingSelectors

/-- Result of `_fetch_category`: either a category string or an uncaught
Python `KeyError` (the dict subscript is outside the per-selector
`try`/`except`). -/
inductive CategoryResult where
  | ok (category : String)
  | keyError (key : String)
deriving DecidableEq

/-- Candidate loop of `_fetch_category`: strip, collapse whitespace runs,
return the first non-empty text; `"未知"` ("unknown") when all fail. -/
def categoryLoop (find : SelFind) : List String → String
  | [] => "未知"
  | sel :: rest =>
    match find sel with
    | none => categoryLoop find rest
    | some raw =>
      let t := collapseWs (pyStrip raw)
      if t = "" then categoryLoop find rest else t

/-- `_fetch_category` (crawler.py 156-169): iterates
`COMMON_SELECTORS["category"]`. The subscript itself raises `KeyError`
when the key is absent, before any candidate is tried. -/
def fetch_category (find : SelFind) : CategoryResult :=
  match commonSelectors.lookup "category" with
  | none => .keyError "category"
  | some sels => .ok (categoryLoop find sels)

example : fetch_category (fun _ => some "家具") = .keyError "category" := by decide
example : categoryLoop (fun _ => none) ["css:x"] = "未知" := by decide

-- ==========================================================================
-- Table flattener: `_fetch_table_as_dict`, `_fetch_all_rows_as_text`,
-- `_fetch_specs`, `_fetch_packaging` (crawler.py 172-282)
-- ==========================================================================

/-- One `tr` of a table, split into its `th` and `td` cell texts. -/
structure TableRow where
  ths : List String
  tds : List String
deriving DecidableEq

/-- A resolved `table` element: `thead th` cell texts, all `tr` rows with
their `th`/`td` cells, and the `td` texts of each `tbody tr`. -/
structure Table where
  headerCells : List String
  rows : List TableRow
  bodyRows : List (List String)
deriving DecidableEq

/-- Python-dict lookup on an association list: the value at the first
occurrence of the key. -/
def firstValue : List (String × String) → String → Option String
  | [], _ => none
  | p :: rest, k => if p.1 = k then some p.2 else firstValue rest k

/-- Python-dict assignment `attrs[key] = val` on an association list: an
existing key keeps its position but gets the new value; a new key is
appended. -/
def dictAssign (d : List (String × String)) (k v : String) :
    List (String × String) :=
  if (firstValue d k).isSome then
    d.map (fun p => if p.1 = k then (k, v) else p)
  else d ++ [(k, v)]

/-- `attrs[key] = val` guarded by `key not in attrs` (mode B). -/
def dictInsertIfAbsent (d : List (String × String)) (k v : String) :
    List (String × String) :=
  if (firstValue d k).isSome then d else d ++ [(k, v)]

/-- Mode A of `_fetch_table_as_dict` (key/value rows, no header): per row,
pair the i-th `th` with the i-th `td` up to the shorter length, strip both,
keep only pairs with non-empty key and value; plain dict assignment (no
duplicate-key guard). -/
def modeADict (tbl : Table) (attrs : List (String × String)) :
    List (String × String) :=
  tbl.rows.foldl
    (fun d r =>
      (r.ths.zip r.tds).foldl
        (fun d2 p =>
          let k := pyStrip p.1
          let v := pyStrip p.2
          if k = "" ∨ v = "" then d2 else dictAssign d2 k v)
        d)
    attrs

/-- Mode B of `_fetch_table_as_dict` (header + body): only the first body
row is used; `key not in attrs` guards each insertion. -/
def modeBDict (tbl : Table) (attrs : List (String × String)) :
    List (String × String) :=
  let cols := tbl.headerCells.map pyStrip
  match tbl.bodyRows with
  | [] => attrs
  | firstRow :: _ =>
    (cols.zip firstRow).foldl
      (fun d p =>
        let v := pyStrip p.2
        if p.1 = "" ∨ v = "" then d else dictInsertIfAbsent d p.1 v)
      attrs

/-- Per-table step of `_fetch_table_as_dict`: header presence selects the
parsing mode. -/
def processTable (tbl : Table) (attrs : List (String × String)) :
    List (String × String) :=
  match tbl.headerCells with
  | [] => modeADict tbl attrs
  | _ :: _ => modeBDict tbl attrs

/-- Selector loop of `_fetch_table_as_dict`: `attrs` persists across
candidate selectors, a table with no `tr` is skipped, and the first
selector leaving `attrs` non-empty wins. -/
def tableLoop (findTable : String → Option Table)
    (attrs : List (String × String)) : List String → List (String × String)
  | [] => attrs
  | sel :: rest =>
    match findTable sel with
    | none => tableLoop findTable attrs rest
    | some tbl =>
      match tbl.rows with
      | [] => tableLoop findTable attrs rest
      | _ :: _ =>
        match processTable tbl attrs with
        | [] => tableLoop findTable [] rest
        | a :: as2 => a :: as2

/-- `_fetch_table_as_dict` (crawler.py 172-215). -/
def fetch_table_as_dict (findTable : String → Option Table)
    (sels : List String) : List (String × String) :=
  tableLoop findTable [] sels

/-- `"; "`-joined `key:value` rendering of `_fetch_specs`: values get their
whitespace runs collapsed, keys do not. -/
def joinSpecs (d : List (String × String)) : String :=
  String.intercalate "; " (d.map (fun p => p.1 ++ ":" ++ collapseWs p.2))

/-- `_fetch_specs` (crawler.py 268-276). -/
def fetch_specs (findTable : String → Option Table) : String :=
  joinSpecs (fetch_table_as_dict findTable attributesTableSelectors)

/-- One body row of `_fetch_all_rows_as_text`: `col:value` fragments for
the columns with non-empty name and non-empty stripped value (values
whitespace-collapsed). -/
def rowGroup (cols tds : List String) : List String :=
  (cols.zip tds).filterMap
    (fun p =>
      let v := pyStrip p.2
      if p.1 = "" ∨ v = "" then none
      else some (p.1 ++ ":" ++ collapseWs v))

/-- All bracketed row groups of a header/body table. -/
def tableRowLines (tbl : Table) : List String :=
  let cols := tbl.headerCells.map pyStrip
  tbl.bodyRows.filterMap
    (fun tds =>
      match rowGroup cols tds with
      | [] => none
      | g :: gs => some ("[" ++ String.intercalate "; " (g :: gs) ++ "]"))

/-- `_fetch_all_rows_as_text` (crawler.py 218-265): only header/body tables
contribute; the first selector with at least one row group wins; groups
are joined with `" | "`. -/
def allRowsText (findTable : String → Option Table) : List String → String
  | [] => ""
  | sel :: rest =>
    match findTable sel with
    | none => allRowsText findTable rest
    | some tbl =>
      match tbl.headerCells with
      | [] => allRowsText findTable rest
      | _ :: _ =>
        match tableRowLines tbl with
        | [] => allRowsText findTable rest
        | l :: ls => String.intercalate " | " (l :: ls)

/-- `_fetch_packaging` (crawler.py 279-282). -/
def fetch_packaging (findTable : String → Option Table) : String :=
  allRowsText findTable packagingTableSelectors

-- ==========================================================================
-- SKU extraction: `_fetch_skus_by_schema`, `_fetch_fallback_sku`
-- (crawler.py 285-374)
-- ==========================================================================

/-- A resolved SKU item element; `query` answers the schema's per-item
sub-selectors with the element's stripped-source `textContent` (`none`
models a raised lookup exception). -/
structure SkuElement where
  query : String → Option String

/-- One parsed SKU dictionary. -/
structure SkuRecord where
  name : String
  price_text : String
  price : Option ℚ
  stock_text : String
  stock : Nat
deriving DecidableEq

/-- Per-item extraction of `_fetch_skus_by_schema` (crawler.py 307-337):
each sub-extraction falls back independently (`SKU_<i+1>` name, empty
texts), then price/stock texts are normalized. -/
def parseSku (sch : PageSchema) (i : Nat) (e : SkuElement) : SkuRecord :=
  let nameTxt :=
    match e.query sch.sku_name with
    | some raw => pyStrip raw
    | none => "SKU_" ++ toString (i + 1)
  let ptxt :=
    match e.query sch.price with
    | some raw => pyStrip raw
    | none => ""
  let stxt :=
    match e.query sch.stock with
    | some raw => pyStrip raw
    | none => ""
  { name := nameTxt, price_text := ptxt, price := parsePrice ptxt,
    stock_text := stxt, stock := parseStock stxt }

/-- `enumerate`d parsing of the item list, indices from `i0`. -/
def parseSkusFrom (sch : PageSchema) : Nat → List SkuElement → List SkuRecord
  | _, [] => []
  | i, e :: rest => parseSku sch i e :: parseSkusFrom sch (i + 1) rest

/-- The page's schema surface: `(wrapper selector, item selector) ↦ items`;
`none` models the bounded wrapper wait timing out, `some items` the item
elements found inside the wrapper. -/
def SchemaFind : Type := String → String → Option (List SkuElement)

def skuSchemaLoop (q : SchemaFind) : List PageSchema → List SkuRecord
  | [] => []
  | sch :: rest =>
    match q sch.sku_wrapper sch.sku_item with
    | none => skuSchemaLoop q rest
    | some [] => skuSchemaLoop q rest
    | some (e :: es) => parseSkusFrom sch 0 (e :: es)

/-- `_fetch_skus_by_schema` (crawler.py 285-345): schemas in catalog order,
first schema with a non-empty item set is parsed and returned; `[]` when
none matches. -/
def fetchSkusBySchema (q : SchemaFind) : List SkuRecord :=
  skuSchemaLoop q pageSchemas

/-- Candidate loop of `_fetch_fallback_sku`: the first selector whose
stripped text parses to a price wins. -/
def fallbackScan (find : SelFind) : List String → Option (ℚ × String)
  | [] => none
  | sel :: rest =>
    match find sel with
    | none => fallbackScan find rest
    | some raw =>
      let txt := pyStrip raw
      match parsePrice txt with
      | some v => some (v, txt)
      | none => fallbackScan find rest

/-- `_fetch_fallback_sku` (crawler.py 348-374): at most one synthesized
record, with the fixed name `"默认规格"`, stock `9999`, stock text
`"默认"`. -/
def fetch_fallback_sku (find : SelFind) : List SkuRecord :=
  match fallbackScan find singlePriceSelectors with
  | some (v, txt) =>
    [{ name := "默认规格", price_text := txt, price := some v,
       stock_text := "默认", stock := 9999 }]
  | none => []

/-- SKU step of `fetch_item` (crawler.py 648-651): the schema pass, and the
fallback pass exactly when it returned the empty list. -/
def fetchSkus (q : SchemaFind) (find : SelFind) : List SkuRecord :=
  match fetchSkusBySchema q with
  | [] => fetch_fallback_sku find
  | r :: rs => r :: rs

-- ==========================================================================
-- Cookie injection: `_load_cookies` (crawler.py 560-586)
-- ==========================================================================

/-- The module-level names bound by `crawler.py`'s import statements.
`json` is NOT among them, although `_load_cookies` calls `json.load`. -/
def crawlerModuleNames : List String :=
  ["os", "re", "datetime", "Dict", "List", "Optional", "Tuple", "Any",
   "webdriver", "By", "Service", "EC", "WebDriverWait", "GeckoDriverManager"]

/-- A raw cookie object from `cookies.json`: its field/value pairs. -/
structure PyCookie where
  fields : List (String × String)
deriving DecidableEq

/-- The Selenium-accepted cookie fields (`valid_keys`, crawler.py 577). -/
def allowedCookieKeys : List String :=
  ["name", "value", "domain", "path", "expiry", "secure", "httpOnly", "sameSite"]

/-- The field filter applied to each cookie before `add_cookie`. -/
def filterCookie (c : PyCookie) : List (String × String) :=
  c.fields.filter (fun p => allowedCookieKeys.contains p.1)

/-- The per-cookie injection loop (crawler.py 575-583): every cookie is
attempted with its filtered fields; an `add_cookie` failure (`inject`
returning `false`) is swallowed and the loop continues. Returns the
per-cookie success flags. -/
def injectCookies (inject : List (String × String) → Bool)
    (cookies : List PyCookie) : List Bool :=
  cookies.map (fun c => inject (filterCookie c))

/-- Outcome of `_load_cookies`. -/
inductive CookieLoadResult where
  | noFile
  | abortedByError
  | injected (flags : List Bool)
deriving DecidableEq

/-- `_load_cookies` (crawler.py 560-586): nothing when `cookies.json` is
absent; otherwise the body runs under a blanket `except Exception`
handler. Its first statement, `json.load(f)`, raises `NameError` when
`json` is not a bound module name, so the handler fires and no cookie is
injected. -/
def load_cookies (fileExists : Bool)
    (cookies : List PyCookie) (inject : List (String × String) → Bool) :
    CookieLoadResult :=
  if fileExists = false then .noFile
  else if crawlerModuleNames.contains "json" = false then .abortedByError
  else .injected (injectCookies inject cookies)

-- ==========================================================================
-- Title recovery loop and orchestrator: `fetch_item` (crawler.py 589-667)
-- ==========================================================================

/-- Outcome of the title-acquisition phase, instrumented with the number of
title-extraction attempts made and the seconds slept. -/
inductive TitleOutcome where
  | success (title : String) (attempts : Nat) (sleptSeconds : Nat)
  | exhausted (attempts : Nat) (sleptSeconds : Nat)
deriving DecidableEq

/-- The `for _ in range(6)` recovery loop (crawler.py 620-625): sleep 5
seconds, re-extract; `g i` is the result of the i-th title extraction
(0-indexed over all extractions, the pre-loop one included). -/
def retryTitles (g : Nat → String) : Nat → Nat → Nat → TitleOutcome
  | i, slept, 0 => .exhausted i slept
  | i, slept, fuel + 1 =>
    if g i = "" then retryTitles g (i + 1) (slept + 5) fuel
    else .success (g i) (i + 1) (slept + 5)

/-- Title acquisition of `fetch_item` (crawler.py 613-625): one initial
extraction, then up to 6 retries at 5-second intervals. -/
def fetchTitleLoop (g : Nat → String) : TitleOutcome :=
  if g 0 = "" then retryTitles g 1 0 6 else .success (g 0) 1 0

/-- All queries `fetch_item` makes against the driver. `titleAt i` is what
`_fetch_title` would return on its i-th call (the page may change while
the recovery loop sleeps); the other oracles describe the settled page
used by the post-loop extraction steps. `currentUrl`, `pageTitle` and
`sourceLen` are `driver.current_url`, `driver.title` and
`len(driver.page_source)`. -/
structure PageOracle where
  titleAt : Nat → String
  find : SelFind
  findAll : String → List String
  findTable : String → Option Table
  schemaItems : SchemaFind
  currentUrl : String
  pageTitle : String
  sourceLen : Nat

/-- `"login.1688.com" in current_url or "login.taobao.com" in current_url`. -/
def isLoginRedirect (u : String) : Bool :=
  containsSub "login.1688.com".data u.data || containsSub "login.taobao.com".data u.data

/-- The assembled product record (crawler.py 653-662). -/
structure ItemRecord where
  url : String
  product_title_main : String
  shipping : ℚ
  shipping_text : String
  category : String
  specs : String
  packaging : String
  skus : List SkuRecord
deriving DecidableEq

/-- The errors `fetch_item` can raise. -/
inductive FetchError where
  | loginRedirect (currentUrl : String)
  | extractionExhausted (currentUrl : String) (pageTitle : String) (sourceLen : Nat)
  | uncaughtKeyError (key : String)
deriving DecidableEq

inductive FetchResult where
  | ok (r : ItemRecord)
  | err (e : FetchError)
deriving DecidableEq

/-- `fetch_item` (crawler.py 589-667): login-redirect check, title loop
with recovery, then shipping, category (whose `KeyError` propagates —
the surrounding `try` has only a `finally`), specs, packaging and SKUs.
The cookie-injection step is not modelled here: its blanket handler
swallows every failure, so it cannot influence the returned value. -/
def fetch_item (url : String) (p : PageOracle) : FetchResult :=
  if isLoginRedirect p.currentUrl then .err (.loginRedirect p.currentUrl)
  else
    match fetchTitleLoop p.titleAt with
    | .exhausted _ _ =>
      .err (.extractionExhausted p.currentUrl p.pageTitle p.sourceLen)
    | .success title _ _ =>
      let sh := fetch_shipping p.findAll
      match fetch_category p.find with
      | .keyError k => .err (.uncaughtKeyError k)
      | .ok cat =>
        .ok { url := url, product_title_main := title,
              shipping := sh.1, shipping_text := sh.2, category := cat,
              specs := fetch_specs p.findTable,
              packaging := fetch_packaging p.findTable,
              skus := fetchSkus p.schemaItems p.find }

-- ==========================================================================
-- Statement helpers (specification-side views of the table pass)
-- ==========================================================================

/-- The qualifying `(key, value)` pairs one key/value row contributes:
`th`/`td` cells paired positionally, stripped, empties dropped. -/
def rowQual (r : TableRow) : List (String × String) :=
  (r.ths.zip r.tds).filterMap
    (fun p =>
      if pyStrip p.1 = "" ∨ pyStrip p.2 = "" then none
      else some (pyStrip p.1, pyStrip p.2))

/-- All qualifying pairs of a key/value table, in document order. -/
def qualPairs : List TableRow → List (String × String)
  | [] => []
  | r :: rest => rowQual r ++ qualPairs rest

/-- The value of the LAST occurrence of a key in a pair sequence. -/
def lastValue : List (String × String) → String → Option String
  | [], _ => none
  | p :: rest, k =>
    match lastValue rest k with
    | some v => some v
    | none => if p.1 = k then some p.2 else none

-- ==========================================================================
-- Concrete documents used by witnesses and counterexamples
-- ==========================================================================

/-- Title extractor results: empty on attempts 0-2, a title from attempt 3. -/
def c2gSucc : Nat → String := fun i => if i < 3 then "" else "标题"

/-- A page whose title never appears (oracle for the exhaustion run). -/
def c2oracle : PageOracle :=
  { titleAt := fun _ => "", find := fun _ => none, findAll := fun _ => [],
    findTable := fun _ => none, schemaItems := fun _ _ => none,
    currentUrl := "https://detail.1688.com/offer/1.html",
    pageTitle := "验证", sourceLen := 1200 }

/-- An SKU item element answering only schema 1's sub-selectors. -/
def c3elem : SkuElement :=
  ⟨fun sel =>
    if sel = "css:.sku-item-name" then some "红色"
    else if sel = "css:.discountPrice-price" then some "¥12" else none⟩

/-- A page on which schema 1 resolves one item. -/
def c3q : SchemaFind := fun w i =>
  if w = "css:#sku-count-widget-wrapper" ∧ i = "css:.sku-item-wrapper" then
    some [c3elem]
  else none

/-- The same page with schema 2's wrapper answering differently. -/
def c3q2 : SchemaFind := fun w i =>
  if w = "css:.expand-view-list" then some [⟨fun _ => some "B"⟩] else c3q w i

/-- A page on which no schema wrapper resolves. -/
def c4qEmpty : SchemaFind := fun _ _ => none

/-- A page on which schema 1 resolves one (blank) item. -/
def c4qFull : SchemaFind := fun w _ =>
  if w = "css:#sku-count-widget-wrapper" then some [⟨fun _ => none⟩] else none

/-- A document whose second single-price candidate carries a price. -/
def c4find : SelFind := fun sel =>
  if sel = "css:.price-text" then some "3元" else none

/-- A document with no resolvable element at all. -/
def c4findNone : SelFind := fun _ => none

/-- A document whose first title candidate has padded text. -/
def c6find : SelFind := fun sel =>
  if sel = "css:div.title-content h1" then some " 沙发 " else none

/-- A document whose first shipping candidate matches one free-shipping
element. -/
def c6findAll : String → List String := fun sel =>
  if sel = "css:em.service-item" then ["包邮"] else []

/-- A document whose title text contains an interior double space. -/
def c6cexFind : SelFind := fun sel =>
  if sel = "css:div.title-content h1" then some "a  b" else none

/-- A key/value attribute table repeating the key `"k"`. -/
def c7cexRows : List TableRow := [⟨["k"], ["v1"]⟩, ⟨["k"], ["v2"]⟩]

/-- A document whose first attribute-table candidate is `c7cexRows`. -/
def c7cexFind : String → Option Table := fun sel =>
  if sel = "css:#productAttributes table" then some ⟨[], c7cexRows, []⟩ else none

/-- A one-row key/value attribute table. -/
def c7rows : List TableRow := [⟨["颜色"], ["红 色"]⟩]

/-- A document whose first attribute-table candidate is `c7rows`. -/
def c7find : String → Option Table := fun sel =>
  if sel = "css:#productAttributes table" then some ⟨[], c7rows, []⟩ else none

/-- A page whose title never appears and whose URL is not a login page. -/
def c9oracle : PageOracle :=
  { titleAt := fun _ => "", find := fun _ => none, findAll := fun _ => [],
    findTable := fun _ => none, schemaItems := fun _ _ => none,
    currentUrl := "https://detail.1688.com/offer/2.html",
    pageTitle := "登录", sourceLen := 800 }

/-- A document whose first single-price candidate carries a price. -/
def c10find : SelFind := fun sel =>
  if sel = "css:.discountPrice-price" then some " 12元 " else none

-- ==========================================================================
-- Helper lemmas
-- ==========================================================================

lemma matchValue_nonneg (m : PriceMatch) : 0 ≤ matchValue m := by
  rcases m with ⟨ip, sep, fp⟩
  cases sep with
  | none => unfold matchValue; positivity
  | some c =>
    unfold matchValue
    dsimp only
    split
    · positivity
    · positivity

lemma titleLoop_all_empty (g : Nat → String) (hall : ∀ i, i ≤ 6 → g i = "") :
    fetchTitleLoop g = .exhausted 7 30 := by
  have h0 := hall 0 (by omega)
  have h1 := hall 1 (by omega)
  have h2 := hall 2 (by omega)
  have h3 := hall 3 (by omega)
  have h4 := hall 4 (by omega)
  have h5 := hall 5 (by omega)
  have h6 := hall 6 (by omega)
  simp [fetchTitleLoop, retryTitles, h0, h1, h2, h3, h4, h5, h6]

lemma retryTitles_success_ne (g : Nat → String) :
    ∀ (fuel i sl : Nat) (t : String) (a s : Nat),
      retryTitles g i sl fuel = .success t a s → t ≠ "" := by
  intro fuel
  induction fuel with
  | zero =>
    intro i sl t a s h
    exact absurd h (by simp [retryTitles])
  | succ f ih =>
    intro i sl t a s h
    unfold retryTitles at h
    by_cases hg : g i = ""
    · rw [if_pos hg] at h
      exact ih _ _ _ _ _ h
    · rw [if_neg hg] at h
      injection h with ht _ _
      rw [← ht]
      exact hg

lemma fetchTitleLoop_success_ne (g : Nat → String) (t : String) (a s : Nat)
    (h : fetchTitleLoop g = .success t a s) : t ≠ "" := by
  unfold fetchTitleLoop at h
  by_cases hg : g 0 = ""
  · rw [if_pos hg] at h
    exact retryTitles_success_ne g 6 1 0 t a s h
  · rw [if_neg hg] at h
    injection h with ht _ _
    rw [← ht]
    exact hg

lemma fetch_item_exhausted (url : String) (p : PageOracle)
    (hlog : isLoginRedirect p.currentUrl = false)
    (ht : fetchTitleLoop p.titleAt = .exhausted 7 30) :
    fetch_item url p =
      .err (.extractionExhausted p.currentUrl p.pageTitle p.sourceLen) := by
  unfold fetch_item
  simp [hlog, ht]

lemma fetch_category_keyError (find : SelFind) :
    fetch_category find = .keyError "category" := rfl

lemma titleCand_congr (find find2 : SelFind) (sel : String)
    (h : find2 sel = find sel) : titleCand find2 sel = titleCand find sel := by
  unfold titleCand
  rw [h]

lemma titleLoop_first (find : SelFind) :
    ∀ (sels : List String) (k : Nat) (t : String),
      k < sels.length →
      (∀ j, j < k → titleCand find (sels.getD j "") = none) →
      titleCand find (sels.getD k "") = some t →
      titleLoop find sels = t := by
  intro sels
  induction sels with
  | nil => intro k t hk _ _; exact absurd hk (by simp)
  | cons s rest ih =>
    intro k t hk hb hs
    cases k with
    | zero =>
      unfold titleLoop
      rw [show (s :: rest).getD 0 "" = s from rfl] at hs
      rw [hs]
    | succ k =>
      have hb0 := hb 0 (Nat.succ_pos k)
      rw [show (s :: rest).getD 0 "" = s from rfl] at hb0
      unfold titleLoop
      rw [hb0]
      exact ih k t (by simpa using hk) (fun j hj => hb (j + 1) (by omega)) hs

lemma shippingLoop_first (findAll : String → List String) :
    ∀ (sels : List String) (k : Nat) (r : ℚ × String),
      k < sels.length →
      (∀ j, j < k → shippingFromElems (findAll (sels.getD j "")) = none) →
      shippingFromElems (findAll (sels.getD k "")) = some r →
      shippingLoop findAll sels = r := by
  intro sels
  induction sels with
  | nil => intro k r hk _ _; exact absurd hk (by simp)
  | cons s rest ih =>
    intro k r hk hb hs
    cases k with
    | zero =>
      unfold shippingLoop
      rw [show (s :: rest).getD 0 "" = s from rfl] at hs
      rw [hs]
    | succ k =>
      have hb0 := hb 0 (Nat.succ_pos k)
      rw [show (s :: rest).getD 0 "" = s from rfl] at hb0
      unfold shippingLoop
      rw [hb0]
      exact ih k r (by simpa using hk) (fun j hj => hb (j + 1) (by omega)) hs


lemma firstValue_map_assign (d : List (String × String)) (k v k' : String) :
    firstValue (d.map (fun p => if p.1 = k then (k, v) else p)) k' =
      if k' = k then (if (firstValue d k).isSome = true then some v else none)
      else firstValue d k' := by
  induction d with
  | nil => by_cases hk : k' = k <;> simp [firstValue, hk]
  | cons p rest ih =>
    by_cases hp : p.1 = k <;> by_cases hk : k' = k
    · subst hk
      simp [firstValue, hp]
    · have h1 : ¬ k = k' := fun h => hk h.symm
      have h2 : ¬ p.1 = k' := by rw [hp]; exact h1
      simp [firstValue, hp, hk, h1, h2, ih]
    · subst hk
      simp [firstValue, hp, ih]
    · by_cases hq : p.1 = k'
      · simp [firstValue, hp, hk, hq]
      · simp [firstValue, hp, hk, hq, ih]

lemma firstValue_append (d l2 : List (String × String)) (k' : String) :
    firstValue (d ++ l2) k' =
      match firstValue d k' with
      | some v => some v
      | none => firstValue l2 k' := by
  induction d with
  | nil => simp [firstValue]
  | cons p rest ih =>
    by_cases hq : p.1 = k'
    · simp [firstValue, hq]
    · simp only [List.cons_append, firstValue, if_neg hq]
      exact ih

lemma firstValue_dictAssign (d : List (String × String)) (k v k' : String) :
    firstValue (dictAssign d k v) k' =
      if k' = k then some v else firstValue d k' := by
  unfold dictAssign
  by_cases hp : (firstValue d k).isSome = true
  · rw [if_pos hp, firstValue_map_assign]
    by_cases hk : k' = k <;> simp [hk, hp]
  · rw [if_neg hp, firstValue_append]
    have hnone : firstValue d k = none := Option.not_isSome_iff_eq_none.mp hp
    by_cases hk : k' = k
    · subst hk; rw [hnone]; simp [firstValue]
    · cases hd : firstValue d k' with
      | some w => simp [hk]
      | none => simp [firstValue, Ne.symm hk, hk]

lemma firstValue_foldl_assign (l : List (String × String)) :
    ∀ (d : List (String × String)) (k : String),
      firstValue (l.foldl (fun d2 p => dictAssign d2 p.1 p.2) d) k =
        match lastValue l k with
        | some v => some v
        | none => firstValue d k := by
  induction l with
  | nil => intro d k; simp [lastValue]
  | cons p rest ih =>
    intro d k
    rw [List.foldl_cons, ih]
    cases h : lastValue rest k with
    | some v => simp [lastValue, h]
    | none =>
      simp only [lastValue, h, firstValue_dictAssign]
      by_cases hk : p.1 = k
      · rw [if_pos hk.symm, if_pos hk]
      · rw [if_neg (fun h2 => hk h2.symm), if_neg hk]

lemma foldl_row_filterMap (ps : List (String × String)) :
    ∀ d : List (String × String),
      ps.foldl
        (fun d2 p =>
          if pyStrip p.1 = "" ∨ pyStrip p.2 = "" then d2
          else dictAssign d2 (pyStrip p.1) (pyStrip p.2)) d =
      (ps.filterMap (fun p =>
          if pyStrip p.1 = "" ∨ pyStrip p.2 = "" then none
          else some (pyStrip p.1, pyStrip p.2))).foldl
        (fun d2 p => dictAssign d2 p.1 p.2) d := by
  induction ps with
  | nil => intro d; rfl
  | cons p rest ih =>
    intro d
    by_cases h : pyStrip p.1 = "" ∨ pyStrip p.2 = ""
    · simp [h, ih]
    · simp [h, ih]

lemma modeA_rows_fold (rows : List TableRow) :
    ∀ (hc : List String) (br : List (List String))
      (attrs : List (String × String)),
      modeADict ⟨hc, rows, br⟩ attrs =
        (qualPairs rows).foldl (fun d2 p => dictAssign d2 p.1 p.2) attrs := by
  induction rows with
  | nil => intro hc br attrs; rfl
  | cons r rest ih =>
    intro hc br attrs
    have hinner :
        modeADict ⟨hc, r :: rest, br⟩ attrs =
          modeADict ⟨hc, rest, br⟩
            ((r.ths.zip r.tds).foldl
              (fun d2 p =>
                if pyStrip p.1 = "" ∨ pyStrip p.2 = "" then d2
                else dictAssign d2 (pyStrip p.1) (pyStrip p.2)) attrs) := by
      simp [modeADict]
    rw [hinner, ih, foldl_row_filterMap]
    show (qualPairs rest).foldl _ ((rowQual r).foldl _ attrs) = _
    rw [show qualPairs (r :: rest) = rowQual r ++ qualPairs rest from rfl,
      List.foldl_append]

lemma mem_dictAssign (d : List (String × String)) (k v : String)
    (p : String × String) (h : p ∈ dictAssign d k v) : p ∈ d ∨ p = (k, v) := by
  unfold dictAssign at h
  split at h
  · rcases List.mem_map.mp h with ⟨q, hq, he⟩
    by_cases hqk : q.1 = k
    · rw [if_pos hqk] at he; right; exact he.symm
    · rw [if_neg hqk] at he; left; rw [← he]; exact hq
  · rcases List.mem_append.mp h with h1 | h1
    · left; exact h1
    · right; simpa using h1

lemma mem_foldl_assign (l : List (String × String)) :
    ∀ (d : List (String × String)) (p : String × String),
      p ∈ l.foldl (fun d2 q => dictAssign d2 q.1 q.2) d → p ∈ d ∨ p ∈ l := by
  induction l with
  | nil => intro d p h; left; simpa using h
  | cons q rest ih =>
    intro d p h
    rw [List.foldl_cons] at h
    rcases ih _ p h with h1 | h1
    · rcases mem_dictAssign _ _ _ _ h1 with h2 | h2
      · left; exact h2
      · right; rw [h2]; simp
    · right; exact List.mem_cons_of_mem _ h1

lemma mem_rowQual (r : TableRow) (p : String × String) (h : p ∈ rowQual r) :
    p.1 ≠ "" ∧ p.2 ≠ "" := by
  unfold rowQual at h
  rcases List.mem_filterMap.mp h with ⟨q, _, hq⟩
  by_cases hc : pyStrip q.1 = "" ∨ pyStrip q.2 = ""
  · rw [if_pos hc] at hq; exact absurd hq (by simp)
  · rw [if_neg hc] at hq
    push_neg at hc
    injection hq with h2
    rw [← h2]
    exact ⟨hc.1, hc.2⟩

lemma mem_qualPairs (rows : List TableRow) (p : String × String)
    (h : p ∈ qualPairs rows) : p.1 ≠ "" ∧ p.2 ≠ "" := by
  induction rows with
  | nil => simp [qualPairs] at h
  | cons r rest ih =>
    unfold qualPairs at h
    rcases List.mem_append.mp h with h1 | h1
    · exact mem_rowQual r p h1
    · exact ih h1

-- ==========================================================================
-- Claims
-- ==========================================================================

/-- C1: the claim says the category extractor returns the sentinel `"未知"`
("unknown") when all candidates fail, never the empty string, and surfaces
no error. In the code, `COMMON_SELECTORS` has no `"category"` key, so the
subscript in `_fetch_category` raises `KeyError` on EVERY invocation —
before any candidate selector is tried — and the sentinel line is
unreachable. -/
theorem c1_category_extractor_raises (find : SelFind) :
    fetch_category find = .keyError "category" ∧
    ∀ c : String, fetch_category find ≠ .ok c := by
  refine ⟨fetch_category_keyError find, ?_⟩
  intro c h
  rw [fetch_category_keyError find] at h
  exact CategoryResult.noConfusion h

/-- C2: recovery loop of `fetch_item`. With a title extractor that is empty
on attempts 0-2 and non-empty on attempt 3, the loop succeeds after
exactly 4 title-extraction attempts (15 s slept). With an always-empty
extractor it performs the documented 6 retries at 5-second intervals
(7 extraction attempts in all, 30 s slept) and `fetch_item` raises the
fatal error carrying the current URL, the browser-reported page title and
the page-source length. -/
theorem c2_recovery_loop (g g2 : Nat → String) (url : String) (p : PageOracle)
    (h0 : g 0 = "") (h1 : g 1 = "") (h2 : g 2 = "") (h3 : g 3 ≠ "")
    (hall : ∀ i, i ≤ 6 → g2 i = "")
    (hp : ∀ i, i ≤ 6 → p.titleAt i = "")
    (hlog : isLoginRedirect p.currentUrl = false) :
    fetchTitleLoop g = .success (g 3) 4 15 ∧
    fetchTitleLoop g2 = .exhausted 7 30 ∧
    fetch_item url p =
      .err (.extractionExhausted p.currentUrl p.pageTitle p.sourceLen) := by
  refine ⟨?_, titleLoop_all_empty g2 hall,
    fetch_item_exhausted url p hlog (titleLoop_all_empty p.titleAt hp)⟩
  simp [fetchTitleLoop, retryTitles, h0, h1, h2, h3]

/-- Witness for C2 at concrete extractors and a concrete page. -/
theorem c2_recovery_loop_witness :
    fetchTitleLoop c2gSucc = .success "标题" 4 15 ∧
    fetchTitleLoop (fun _ => "") = .exhausted 7 30 ∧
    fetch_item "https://detail.1688.com/offer/1.html" c2oracle =
      .err (.extractionExhausted "https://detail.1688.com/offer/1.html" "验证" 1200) :=
  c2_recovery_loop c2gSucc (fun _ => "") "https://detail.1688.com/offer/1.html"
    c2oracle rfl rfl rfl (by decide) (fun i _ => rfl) (fun i _ => rfl) (by decide)

/-- C5: `_parse_price` is total (its Lean embedding returns an `Option`,
and the only fallible step of the source, `float`, is guarded): it yields
`0.0` whenever the free-shipping marker `"包邮"` occurs, otherwise the
value of the first `\d+[\.,]?\d*` substring, otherwise no value; every
returned number is non-negative. -/
theorem c5_parse_price_total (s : String) :
    (containsBaoYou s = true → parsePrice s = some 0) ∧
    (containsBaoYou s = false → ∀ m, scanMatch s.data = some m →
      parsePrice s = some (matchValue m)) ∧
    (containsBaoYou s = false → scanMatch s.data = none → parsePrice s = none) ∧
    (∀ q, parsePrice s = some q → 0 ≤ q) := by
  refine ⟨?_, ?_, ?_, ?_⟩
  · intro h
    by_cases hs : s = ""
    · rw [hs] at h; exact absurd h (by decide)
    · unfold parsePrice; rw [if_neg hs, if_pos h]
  · intro h m hm
    by_cases hs : s = ""
    · rw [hs] at hm; exact absurd hm (by simp [scanMatch])
    · unfold parsePrice; rw [if_neg hs, if_neg (by simp [h]), hm]
  · intro h hm
    by_cases hs : s = ""
    · unfold parsePrice; rw [if_pos hs]
    · unfold parsePrice; rw [if_neg hs, if_neg (by simp [h]), hm]
  · intro q h
    unfold parsePrice at h
    by_cases hs : s = ""
    · rw [if_pos hs] at h; exact absurd h (by simp)
    · rw [if_neg hs] at h
      by_cases hb : containsBaoYou s
      · rw [if_pos hb] at h
        injection h with h2
        exact le_of_eq h2
      · rw [if_neg hb] at h
        cases hm : scanMatch s.data with
        | none => rw [hm] at h; exact absurd h (by simp)
        | some m =>
          rw [hm] at h
          injection h with h2
          rw [← h2]
          exact matchValue_nonneg m

/-- Witness for C5 at concrete price texts. -/
theorem c5_parse_price_total_witness :
    parsePrice "包邮" = some 0 ∧ parsePrice "abc" = none ∧
    (0 : ℚ) ≤ 1234 :=
  ⟨(c5_parse_price_total "包邮").1 (by decide),
   (c5_parse_price_total "abc").2.2.1 (by decide) (by decide),
   (c5_parse_price_total "1,234元").2.2.2 1234 (by decide)⟩

/-- C8: the claim says cookies are injected with only the allowed fields
kept and that one malformed cookie is skipped without aborting the batch.
In the code, `crawler.py` never imports `json`, so `json.load` in
`_load_cookies` raises `NameError`; the blanket `except Exception` handler
catches it and the function returns having injected NO cookie whenever
`cookies.json` exists. The per-cookie loop (modelled by `injectCookies`)
is unreachable. -/
theorem c8_cookie_injection_dead (cookies : List PyCookie)
    (inject : List (String × String) → Bool) :
    load_cookies true cookies inject = .abortedByError ∧
    crawlerModuleNames.contains "json" = false ∧
    ∀ flags, load_cookies true cookies inject ≠ .injected flags := by
  refine ⟨rfl, rfl, ?_⟩
  intro flags h
  exact CookieLoadResult.noConfusion h

/-- C10: every record synthesized by the fallback single-SKU path carries
the fixed name `"默认规格"`, stock `9999`, stock text `"默认"` and a
present price; the fallback never returns more than one record. -/
theorem c10_fallback_record_shape (find : SelFind) :
    (fetch_fallback_sku find).length ≤ 1 ∧
    ∀ r ∈ fetch_fallback_sku find,
      r.name = "默认规格" ∧ r.stock = 9999 ∧ r.stock_text = "默认" ∧
      r.price.isSome = true := by
  unfold fetch_fallback_sku
  cases h : fallbackScan find singlePriceSelectors with
  | none => exact ⟨by simp, by simp⟩
  | some vt =>
    refine ⟨by simp, ?_⟩
    intro r hr
    rcases vt with ⟨v, txt⟩
    simp only [List.mem_singleton] at hr
    rw [hr]
    exact ⟨rfl, rfl, rfl, rfl⟩

/-- Witness for C10 at a concrete document with a fallback price. -/
theorem c10_fallback_record_shape_witness :
    (SkuRecord.mk "默认规格" "12元" (some 12) "默认" 9999).name = "默认规格" ∧
    (SkuRecord.mk "默认规格" "12元" (some 12) "默认" 9999).stock = 9999 ∧
    (SkuRecord.mk "默认规格" "12元" (some 12) "默认" 9999).stock_text = "默认" ∧
    (SkuRecord.mk "默认规格" "12元" (some 12) "默认" 9999).price.isSome = true :=
  (c10_fallback_record_shape c10find).2
    (SkuRecord.mk "默认规格" "12元" (some 12) "默认" 9999) (by decide)

/-- C3: schema-ordered SKU extraction is strictly priority-ordered. When
schema 1 resolves a non-empty item set, the result is exactly schema 1's
per-item extraction; the outcome does not change if the oracle answers
differently everywhere outside schema 1's wrapper/item query (so a later
schema's selectors are never consulted); and per-item parsing depends only
on the element's answers to schema 1's own three sub-selectors. -/
theorem c3_schema_priority (q q2 : SchemaFind) (items : List SkuElement)
    (hA : q "css:#sku-count-widget-wrapper" "css:.sku-item-wrapper" = some items)
    (hne : items ≠ [])
    (hq2 : q2 "css:#sku-count-widget-wrapper" "css:.sku-item-wrapper" = some items) :
    fetchSkusBySchema q = parseSkusFrom schemaStandardRetail 0 items ∧
    fetchSkusBySchema q2 = fetchSkusBySchema q ∧
    (∀ (i : Nat) (e e2 : SkuElement),
      e2.query "css:.sku-item-name" = e.query "css:.sku-item-name" →
      e2.query "css:.discountPrice-price" = e.query "css:.discountPrice-price" →
      e2.query "css:.sku-item-sale-num" = e.query "css:.sku-item-sale-num" →
      parseSku schemaStandardRetail i e2 = parseSku schemaStandardRetail i e) := by
  have key : ∀ q3 : SchemaFind,
      q3 "css:#sku-count-widget-wrapper" "css:.sku-item-wrapper" = some items →
      fetchSkusBySchema q3 = parseSkusFrom schemaStandardRetail 0 items := by
    intro q3 h3
    unfold fetchSkusBySchema pageSchemas skuSchemaLoop
    have hw : schemaStandardRetail.sku_wrapper = "css:#sku-count-widget-wrapper" := rfl
    have hi : schemaStandardRetail.sku_item = "css:.sku-item-wrapper" := rfl
    rw [hw, hi, h3]
    cases items with
    | nil => exact absurd rfl hne
    | cons e es => rfl
  refine ⟨key q hA, ?_, ?_⟩
  · rw [key q hA, key q2 hq2]
  · intro i e e2 hn hp hs
    unfold parseSku
    have h1 : schemaStandardRetail.sku_name = "css:.sku-item-name" := rfl
    have h2 : schemaStandardRetail.price = "css:.discountPrice-price" := rfl
    have h3 : schemaStandardRetail.stock = "css:.sku-item-sale-num" := rfl
    rw [h1, h2, h3, hn, hp, hs]

/-- Witness for C3 at a concrete one-item page; the second oracle answers
schema 2's wrapper differently yet yields the same result. -/
theorem c3_schema_priority_witness :
    fetchSkusBySchema c3q = parseSkusFrom schemaStandardRetail 0 [c3elem] ∧
    fetchSkusBySchema c3q2 = fetchSkusBySchema c3q :=
  ⟨(c3_schema_priority c3q c3q2 [c3elem] rfl (by simp) rfl).1,
   (c3_schema_priority c3q c3q2 [c3elem] rfl (by simp) rfl).2.1⟩

/-- C4: the fallback single-SKU pass runs exactly when the schema pass
returned the empty list; when the fallback's selector chain finds a
parseable price it yields exactly the one synthesized record, and when it
finds none it yields the empty list — so `skus` is entirely one schema's
output or entirely the fallback's. -/
theorem c4_sku_source_exclusive (q : SchemaFind) (find : SelFind)
    (v : ℚ) (txt : String) :
    (fetchSkusBySchema q = [] → fetchSkus q find = fetch_fallback_sku find) ∧
    (fetchSkusBySchema q ≠ [] → fetchSkus q find = fetchSkusBySchema q) ∧
    (fallbackScan find singlePriceSelectors = some (v, txt) →
      fetch_fallback_sku find =
        [{ name := "默认规格", price_text := txt, price := some v,
           stock_text := "默认", stock := 9999 }]) ∧
    (fallbackScan find singlePriceSelectors = none →
      fetch_fallback_sku find = []) := by
  refine ⟨?_, ?_, ?_, ?_⟩
  · intro h
    unfold fetchSkus
    rw [h]
  · intro h
    unfold fetchSkus
    cases hh : fetchSkusBySchema q with
    | nil => exact absurd hh h
    | cons a as => rfl
  · intro h
    unfold fetch_fallback_sku
    rw [h]
  · intro h
    unfold fetch_fallback_sku
    rw [h]

/-- Witness for C4: an empty schema pass falls back (and produces the one
record), a non-empty schema pass is returned as is, and a priceless
document produces no fallback record. -/
theorem c4_sku_source_exclusive_witness :
    fetchSkus c4qEmpty c4find = fetch_fallback_sku c4find ∧
    fetchSkus c4qFull c4find = fetchSkusBySchema c4qFull ∧
    fetch_fallback_sku c4find =
      [{ name := "默认规格", price_text := "3元", price := some 3,
         stock_text := "默认", stock := 9999 }] ∧
    fetch_fallback_sku c4findNone = [] :=
  ⟨(c4_sku_source_exclusive c4qEmpty c4find 3 "3元").1 rfl,
   (c4_sku_source_exclusive c4qFull c4find 3 "3元").2.1 (by decide),
   (c4_sku_source_exclusive c4qEmpty c4find 3 "3元").2.2.1 (by decide),
   (c4_sku_source_exclusive c4qEmpty c4findNone 3 "3元").2.2.2 rfl⟩

/-- C9: whenever `fetch_item` returns a product record, its
`product_title_main` is non-empty, and a run on which no title extraction
ever yields a non-empty string ends in the raised exhaustion error, never
in a returned record; the title loop itself can only succeed with a
non-empty title. (With the current code the `ok` branch is additionally
unreachable because the category step always raises, see C1.) -/
theorem c9_returned_record_has_title (url : String) (p : PageOracle)
    (hall : ∀ i, i ≤ 6 → p.titleAt i = "")
    (hlog : isLoginRedirect p.currentUrl = false) :
    fetch_item url p =
      .err (.extractionExhausted p.currentUrl p.pageTitle p.sourceLen) ∧
    (∀ (g : Nat → String) (t : String) (a s : Nat),
      fetchTitleLoop g = .success t a s → t ≠ "") ∧
    (∀ (u : String) (q : PageOracle) (r : ItemRecord),
      fetch_item u q = .ok r → r.product_title_main ≠ "") := by
  refine ⟨fetch_item_exhausted url p hlog (titleLoop_all_empty p.titleAt hall),
    fetchTitleLoop_success_ne, ?_⟩
  intro u q r h
  unfold fetch_item at h
  by_cases hl : isLoginRedirect q.currentUrl
  · simp [hl] at h
  · simp only [hl, Bool.false_eq_true, if_false] at h
    cases ht : fetchTitleLoop q.titleAt with
    | exhausted a s => rw [ht] at h; exact FetchResult.noConfusion h
    | success t a s =>
      rw [ht, fetch_category_keyError] at h
      exact FetchResult.noConfusion h

/-- Witness for C9 at a concrete title-less, non-redirected page. -/
theorem c9_returned_record_has_title_witness :
    fetch_item "https://detail.1688.com/offer/2.html" c9oracle =
      .err (.extractionExhausted "https://detail.1688.com/offer/2.html" "登录" 800) :=
  (c9_returned_record_has_title "https://detail.1688.com/offer/2.html" c9oracle
    (fun i _ => rfl) (by decide)).1

/-- C6 counterexample: the claim says every scalar extractor returns text
with whitespace runs collapsed to single spaces. `_fetch_title` only
strips the ends: on a document whose first title candidate reads
`"a  b"`, the extractor returns `"a  b"`, which differs from its
whitespace-collapsed form `"a b"`. -/
theorem c6_whitespace_not_collapsed_cex :
    fetch_title c6cexFind = "a  b" ∧
    collapseWs (fetch_title c6cexFind) = "a b" ∧
    fetch_title c6cexFind ≠ collapseWs (fetch_title c6cexFind) :=
  ⟨by decide, by decide, by decide⟩

/-- C6 (amended): the title and shipping extractors try their candidate
selectors in list order, return the first candidate's non-empty stripped
text immediately (returning the same value under any change of the
document beyond that winning candidate, so later candidates are never
consulted); the returned text is stripped of leading and trailing
whitespace, but interior whitespace runs are NOT collapsed. -/
theorem c6_scalar_chain_order (find find2 : SelFind)
    (findAll findAll2 : String → List String)
    (k : Nat) (raw : String) (m : Nat) (pr : ℚ) (ptxt : String)
    (hk : k < productTitleSelectors.length)
    (hb : ∀ j, j < k → titleCand find (productTitleSelectors.getD j "") = none)
    (hs : find (productTitleSelectors.getD k "") = some raw)
    (hne : pyStrip raw ≠ "")
    (hagree : ∀ j, j ≤ k →
      find2 (productTitleSelectors.getD j "") = find (productTitleSelectors.getD j ""))
    (hm : m < shippingSelectors.length)
    (hb2 : ∀ j, j < m → shippingFromElems (findAll (shippingSelectors.getD j "")) = none)
    (hs2 : shippingFromElems (findAll (shippingSelectors.getD m "")) = some (pr, ptxt))
    (hagree2 : ∀ j, j ≤ m →
      findAll2 (shippingSelectors.getD j "") = findAll (shippingSelectors.getD j "")) :
    fetch_title find = pyStrip raw ∧ fetch_title find2 = pyStrip raw ∧
    fetch_shipping findAll = (pr, ptxt) ∧ fetch_shipping findAll2 = (pr, ptxt) := by
  have hcand : titleCand find (productTitleSelectors.getD k "") = some (pyStrip raw) := by
    unfold titleCand
    rw [hs]
    simp [hne]
  have hb2t : ∀ j, j < k → titleCand find2 (productTitleSelectors.getD j "") = none := by
    intro j hj
    rw [titleCand_congr find find2 _ (hagree j (Nat.le_of_lt hj))]
    exact hb j hj
  have hcand2 : titleCand find2 (productTitleSelectors.getD k "") = some (pyStrip raw) := by
    rw [titleCand_congr find find2 _ (hagree k (le_refl k))]
    exact hcand
  have hbs : ∀ j, j < m → shippingFromElems (findAll2 (shippingSelectors.getD j "")) = none := by
    intro j hj
    rw [hagree2 j (Nat.le_of_lt hj)]
    exact hb2 j hj
  have hss : shippingFromElems (findAll2 (shippingSelectors.getD m "")) = some (pr, ptxt) := by
    rw [hagree2 m (le_refl m)]
    exact hs2
  exact ⟨titleLoop_first find productTitleSelectors k (pyStrip raw) hk hb hcand,
    titleLoop_first find2 productTitleSelectors k (pyStrip raw) hk hb2t hcand2,
    shippingLoop_first findAll shippingSelectors m (pr, ptxt) hm hb2 hs2,
    shippingLoop_first findAll2 shippingSelectors m (pr, ptxt) hm hbs hss⟩

/-- Witness for C6 at a concrete document (first candidate wins for both
title and shipping). -/
theorem c6_scalar_chain_order_witness :
    fetch_title c6find = "沙发" ∧ fetch_title c6find = "沙发" ∧
    fetch_shipping c6findAll = (0, "包邮") ∧ fetch_shipping c6findAll = (0, "包邮") :=
  c6_scalar_chain_order c6find c6find c6findAll c6findAll 0 " 沙发 " 0 0 "包邮"
    (by decide) (fun j hj => absurd hj (Nat.not_lt_zero j)) rfl (by decide)
    (fun _ _ => rfl) (by decide) (fun j hj => absurd hj (Nat.not_lt_zero j))
    (by decide) (fun _ _ => rfl)

lemma processTable_noHeader (rows : List TableRow) (br : List (List String))
    (attrs : List (String × String)) :
    processTable ⟨[], rows, br⟩ attrs = modeADict ⟨[], rows, br⟩ attrs := rfl

/-- C7 counterexample: the claim says the first occurrence of a duplicate
key wins in the key/value table pass. Mode A assigns `attrs[key] = val`
without a duplicate guard, so the LAST occurrence's value wins: on a
table whose rows map `"k"` to `"v1"` and then to `"v2"`, the flattened
dict holds `"v2"`. -/
theorem c7_first_occurrence_cex :
    firstValue (fetch_table_as_dict c7cexFind attributesTableSelectors) "k" = some "v2" ∧
    firstValue (fetch_table_as_dict c7cexFind attributesTableSelectors) "k" ≠ some "v1" :=
  ⟨by decide, by decide⟩

/-- C7 (amended): in the key/value (headerless) table pass every pair with
an empty stripped key or value is dropped, and for duplicate keys the
LAST occurrence's value wins (the key keeps its first position); the
specs output is the `"; "`-joined `key:value` rendering of that dict. -/
theorem c7_keyvalue_table (find : String → Option Table)
    (rows : List TableRow) (key : String)
    (hfind : find "css:#productAttributes table" = some ⟨[], rows, []⟩)
    (hrows : rows ≠ [])
    (hne : modeADict ⟨[], rows, []⟩ [] ≠ []) :
    fetch_table_as_dict find attributesTableSelectors = modeADict ⟨[], rows, []⟩ [] ∧
    (∀ p ∈ modeADict ⟨[], rows, []⟩ [], p.1 ≠ "" ∧ p.2 ≠ "") ∧
    firstValue (modeADict ⟨[], rows, []⟩ []) key = lastValue (qualPairs rows) key ∧
    fetch_specs find = joinSpecs (modeADict ⟨[], rows, []⟩ []) := by
  have h1 : fetch_table_as_dict find attributesTableSelectors =
      modeADict ⟨[], rows, []⟩ [] := by
    unfold fetch_table_as_dict attributesTableSelectors
    cases rows with
    | nil => exact absurd rfl hrows
    | cons r rs =>
      cases hpt : modeADict ⟨[], r :: rs, []⟩ [] with
      | nil => exact absurd hpt hne
      | cons a as =>
        simp only [tableLoop, hfind, processTable_noHeader, hpt]
  refine ⟨h1, ?_, ?_, ?_⟩
  · intro p hp
    rw [modeA_rows_fold] at hp
    rcases mem_foldl_assign _ _ _ hp with h2 | h2
    · simp at h2
    · exact mem_qualPairs rows p h2
  · rw [modeA_rows_fold, firstValue_foldl_assign]
    cases h : lastValue (qualPairs rows) key <;> simp [firstValue]
  · unfold fetch_specs
    rw [h1]

/-- Witness for C7 at a concrete one-row attribute table. -/
theorem c7_keyvalue_table_witness :
    fetch_table_as_dict c7find attributesTableSelectors = [("颜色", "红 色")] ∧
    firstValue [("颜色", "红 色")] "颜色" = lastValue (qualPairs c7rows) "颜色" ∧
    fetch_specs c7find = joinSpecs [("颜色", "红 色")] :=
  ⟨(c7_keyvalue_table c7find c7rows "颜色" rfl (by simp [c7rows]) (by decide)).1,
   (c7_keyvalue_table c7find c7rows "颜色" rfl (by simp [c7rows]) (by decide)).2.2.1,
   (c7_keyvalue_table c7find c7rows "颜色" rfl (by simp [c7rows]) (by decide)).2.2.2⟩
